import Mathlib

/-!
Shallow embedding of the sentiment-extraction layer of the Sentiment_Chatbot
repository (file openrouter_client.py), together with theorems checking the
specification claims against it.

The extraction stage of OpenRouterClient.analyze_sentiment and
OpenRouterClient.analyze_conversation_sentiment is embedded as a pure function
of the raw model text (the string returned by chat).  Python floats are
modelled as rationals: the only float operations the code performs are
conversion from text, min/max clamping and order comparisons, which agree with
the rational model on all decimal literals considered here.  json.loads is
modelled by an executable strict-JSON recursive-descent function (the NaN and
Infinity extensions and surrogate-pair combining of the Python module are
outside the raw texts considered); Python float() is modelled on its
sign/digits/dot/exponent forms.  Unicode-specific case folding and whitespace
beyond ASCII are not exercised by any claim.
-/

namespace SentimentChatbot

/-- Model of a Python/JSON value as produced by json.loads. -/
inductive JsonValue : Type where
  | null : JsonValue
  | bool : Bool → JsonValue
  | num : ℚ → JsonValue
  | str : String → JsonValue
  | arr : List JsonValue → JsonValue
  | obj : List (String × JsonValue) → JsonValue

/-- Whitespace accepted by strict JSON between tokens. -/
def jsonWs (c : Char) : Bool :=
  c = ' ' || c = '\t' || c = '\n' || c = '\r'

/-- Whitespace for the regex class backslash-s and for float() stripping
(ASCII subset). -/
def pyIsSpace (c : Char) : Bool :=
  c = ' ' || c = '\t' || c = '\n' || c = '\r' || c = '\x0b' || c = '\x0c'

/-- Characters matched by the regex word class (ASCII subset). -/
def isWordChar (c : Char) : Bool :=
  c.isAlphanum || c = '_'

/-- Characters matched by the character class of digits and dots used in the
score regex. -/
def isScoreChar (c : Char) : Bool :=
  c.isDigit || c = '.'

/-- Numeric value of a list of decimal digit characters. -/
def digitsToNat (ds : List Char) : Nat :=
  ds.foldl (fun a c => 10 * a + (c.toNat - 48)) 0

/-- Value of an integer-part/fraction-part digit pair, as a rational. -/
def mantissaVal (ds1 ds2 : List Char) : ℚ :=
  (digitsToNat ds1 : ℚ) + (digitsToNat ds2 : ℚ) / (10 : ℚ) ^ ds2.length

/-- Hexadecimal digit value, for JSON unicode escapes. -/
def hexVal (c : Char) : Option Nat :=
  if '0' ≤ c ∧ c ≤ '9' then some (c.toNat - 48)
  else if 'a' ≤ c ∧ c ≤ 'f' then some (c.toNat - 87)
  else if 'A' ≤ c ∧ c ≤ 'F' then some (c.toNat - 70)
  else none

/-- Single-character JSON string escapes. -/
def escChar (c : Char) : Option Char :=
  if c = '"' then some '"'
  else if c = '\\' then some '\\'
  else if c = '/' then some '/'
  else if c = 'b' then some '\x08'
  else if c = 'f' then some '\x0c'
  else if c = 'n' then some '\n'
  else if c = 'r' then some '\r'
  else if c = 't' then some '\t'
  else none

/-- Body of a JSON string literal after the opening quote: returns the decoded
characters and the remainder after the closing quote.  Raw control characters
are rejected, as in strict json.loads. -/
def parseStrBody : Nat → List Char → Option (List Char × List Char)
  | 0, _ => none
  | _ + 1, [] => none
  | _ + 1, '"' :: r => some ([], r)
  | fuel + 1, '\\' :: r =>
    match r with
    | 'u' :: h1 :: h2 :: h3 :: h4 :: r2 =>
      match hexVal h1, hexVal h2, hexVal h3, hexVal h4 with
      | some a, some b, some c, some d =>
        match parseStrBody fuel r2 with
        | some (body, rest) =>
          some (Char.ofNat (((a * 16 + b) * 16 + c) * 16 + d) :: body, rest)
        | none => none
      | _, _, _, _ => none
    | e :: r2 =>
      match escChar e with
      | some c =>
        match parseStrBody fuel r2 with
        | some (body, rest) => some (c :: body, rest)
        | none => none
      | none => none
    | [] => none
  | fuel + 1, c :: r =>
    if c.toNat < 32 then none
    else
      match parseStrBody fuel r with
      | some (body, rest) => some (c :: body, rest)
      | none => none

/-- Strict JSON number: optional minus, integer part without leading zeros,
optional fraction, optional exponent.  Returns the rational value and the
remaining input. -/
def parseJsonNumber (cs : List Char) : Option (ℚ × List Char) :=
  let sgn : Bool × List Char :=
    match cs with
    | '-' :: r => (true, r)
    | _ => (false, cs)
  let neg := sgn.1
  let cs1 := sgn.2
  let ds1 := cs1.takeWhile Char.isDigit
  if ds1 = [] then none
  else if ds1.length > 1 ∧ ds1.headI = '0' then none
  else
    let rest1 := cs1.drop ds1.length
    let fr : Option (List Char × List Char) :=
      match rest1 with
      | '.' :: r2 =>
        let ds2 := r2.takeWhile Char.isDigit
        if ds2 = [] then none else some (ds2, r2.drop ds2.length)
      | _ => some ([], rest1)
    match fr with
    | none => none
    | some (ds2, rest2) =>
      let base := if neg then -(mantissaVal ds1 ds2) else mantissaVal ds1 ds2
      match rest2 with
      | 'e' :: r3 =>
        match parseExpPart r3 with
        | some (q, rest3) => some (base * q, rest3)
        | none => none
      | 'E' :: r3 =>
        match parseExpPart r3 with
        | some (q, rest3) => some (base * q, rest3)
        | none => none
      | _ => some (base, rest2)
where
  /-- Exponent digits after the e, as the factor ten to the exponent. -/
  parseExpPart (cs : List Char) : Option (ℚ × List Char) :=
    let sgn : Bool × List Char :=
      match cs with
      | '-' :: r => (true, r)
      | '+' :: r => (false, r)
      | _ => (false, cs)
    let eds := sgn.2.takeWhile Char.isDigit
    if eds = [] then none
    else
      let e := digitsToNat eds
      let q : ℚ := if sgn.1 then 1 / (10 : ℚ) ^ e else (10 : ℚ) ^ e
      some (q, sgn.2.drop eds.length)

mutual

/-- Strict JSON value, fuel-indexed recursive descent modelling json.loads. -/
def parseVal : Nat → List Char → Option (JsonValue × List Char)
  | 0, _ => none
  | fuel + 1, cs =>
    let cs := cs.dropWhile jsonWs
    match cs with
    | '\x7b' :: r =>
      let r1 := r.dropWhile jsonWs
      match r1 with
      | '\x7d' :: r2 => some (JsonValue.obj [], r2)
      | _ =>
        match parseMembers fuel r1 with
        | some (fields, rest) => some (JsonValue.obj fields, rest)
        | none => none
    | '[' :: r =>
      let r1 := r.dropWhile jsonWs
      match r1 with
      | ']' :: r2 => some (JsonValue.arr [], r2)
      | _ =>
        match parseItems fuel r1 with
        | some (items, rest) => some (JsonValue.arr items, rest)
        | none => none
    | '"' :: r =>
      match parseStrBody (r.length + 1) r with
      | some (body, rest) => some (JsonValue.str (String.mk body), rest)
      | none => none
    | 't' :: 'r' :: 'u' :: 'e' :: r => some (JsonValue.bool true, r)
    | 'f' :: 'a' :: 'l' :: 's' :: 'e' :: r => some (JsonValue.bool false, r)
    | 'n' :: 'u' :: 'l' :: 'l' :: r => some (JsonValue.null, r)
    | _ =>
      match parseJsonNumber cs with
      | some (q, rest) => some (JsonValue.num q, rest)
      | none => none

/-- Object members: expects a key at the head, already past any whitespace. -/
def parseMembers : Nat → List Char → Option (List (String × JsonValue) × List Char)
  | 0, _ => none
  | fuel + 1, cs =>
    match cs with
    | '"' :: r =>
      match parseStrBody (r.length + 1) r with
      | some (key, r1) =>
        let r2 := r1.dropWhile jsonWs
        match r2 with
        | ':' :: r3 =>
          match parseVal fuel r3 with
          | some (v, r4) =>
            let r5 := r4.dropWhile jsonWs
            match r5 with
            | ',' :: r6 =>
              match parseMembers fuel (r6.dropWhile jsonWs) with
              | some (fields, rest) => some ((String.mk key, v) :: fields, rest)
              | none => none
            | '\x7d' :: r6 => some ([(String.mk key, v)], r6)
            | _ => none
          | none => none
        | _ => none
      | none => none
    | _ => none

/-- Array items: expects a value at the head. -/
def parseItems : Nat → List Char → Option (List JsonValue × List Char)
  | 0, _ => none
  | fuel + 1, cs =>
    match parseVal fuel cs with
    | some (v, r) =>
      let r1 := r.dropWhile jsonWs
      match r1 with
      | ',' :: r2 =>
        match parseItems fuel r2 with
        | some (items, rest) => some (v :: items, rest)
        | none => none
      | ']' :: r2 => some ([v], r2)
      | _ => none
    | none => none

end

/-- Model of json.loads: one JSON value with only whitespace around it;
anything else raises JSONDecodeError, modelled as none. -/
def jsonLoads (s : String) : Option JsonValue :=
  match parseVal (2 * s.data.length + 8) s.data with
  | some (v, rest) => if rest.dropWhile jsonWs = [] then some v else none
  | none => none

/-- Lookup in an object field list with Python dict semantics: a later
duplicate key overrides an earlier one. -/
def pyGet (o : List (String × JsonValue)) (k : String) : Option JsonValue :=
  o.foldl (fun acc kv => if kv.1 = k then some kv.2 else acc) none

/-- Model of dict.get with a default. -/
def pyGetD (o : List (String × JsonValue)) (k : String) (d : JsonValue) : JsonValue :=
  (pyGet o k).getD d

/-- Model of Python float() on a string: optional surrounding whitespace,
optional sign, digits with an optional dot, optional exponent.  none models a
ValueError. -/
def pyFloatOfString (s : String) : Option ℚ :=
  let cs0 := (((s.data.dropWhile pyIsSpace).reverse.dropWhile pyIsSpace)).reverse
  let sgn : Bool × List Char :=
    match cs0 with
    | '-' :: r => (true, r)
    | '+' :: r => (false, r)
    | _ => (false, cs0)
  let ds1 := sgn.2.takeWhile Char.isDigit
  let rest1 := sgn.2.drop ds1.length
  let fr : Option (List Char × List Char) :=
    match rest1 with
    | '.' :: r2 => some (r2.takeWhile Char.isDigit, r2.drop (r2.takeWhile Char.isDigit).length)
    | _ => some ([], rest1)
  match fr with
  | none => none
  | some (ds2, rest2) =>
    if ds1 = [] ∧ ds2 = [] then none
    else
      let base := if sgn.1 then -(mantissaVal ds1 ds2) else mantissaVal ds1 ds2
      match rest2 with
      | [] => some base
      | e :: r3 =>
        if e = 'e' ∨ e = 'E' then
          let sgn2 : Bool × List Char :=
            match r3 with
            | '-' :: r4 => (true, r4)
            | '+' :: r4 => (false, r4)
            | _ => (false, r3)
          let eds := sgn2.2.takeWhile Char.isDigit
          if eds = [] ∨ sgn2.2.drop eds.length ≠ [] then none
          else some (if sgn2.1 then base / (10 : ℚ) ^ digitsToNat eds else base * (10 : ℚ) ^ digitsToNat eds)
        else none

/-- Model of str.lower as a character map (ASCII folding). -/
def pyLower (s : String) : String :=
  String.mk (s.data.map Char.toLower)

/-- Model of str.upper as a character map (ASCII folding). -/
def pyUpper (s : String) : String :=
  String.mk (s.data.map Char.toUpper)

/-- Model of Python float() on a JSON value: numbers pass through, strings are
parsed, booleans convert, anything else raises TypeError (none). -/
def pyFloat (v : JsonValue) : Option ℚ :=
  match v with
  | JsonValue.num q => some q
  | JsonValue.str s => pyFloatOfString s
  | JsonValue.bool b => some (if b then 1 else 0)
  | _ => none

/-- Index of the first occurrence of a character, modelling str.find. -/
def firstIdx (cs : List Char) (c : Char) : Option Nat :=
  cs.findIdx? (fun x => x = c)

/-- Index of the last occurrence of a character, modelling str.rfind. -/
def lastIdx (cs : List Char) (c : Char) : Option Nat :=
  match cs.reverse.findIdx? (fun x => x = c) with
  | some r => some (cs.length - 1 - r)
  | none => none

/-- The bracket span of the raw text: the slice from the first opening brace
to the last closing brace, when the first precedes the last; mirrors the
start_idx/end_idx computation of analyze_sentiment. -/
def bracketSlice (s : String) : Option String :=
  match firstIdx s.data '\x7b', lastIdx s.data '\x7d' with
  | some i, some j => if i ≤ j then some (String.mk ((s.data.drop i).take (j + 1 - i))) else none
  | _, _ => none

/-- Strip a literal pattern case-insensitively from the head of the input
(IGNORECASE literal matching, ASCII folding). -/
def stripCI : List Char → List Char → Option (List Char)
  | [], rest => some rest
  | p :: ps, c :: rest => if c.toLower = p.toLower then stripCI ps rest else none
  | _ :: _, [] => none

/-- Strip a literal pattern from the head of the input. -/
def stripLit : List Char → List Char → Option (List Char)
  | [], rest => some rest
  | p :: ps, c :: rest => if c = p then stripLit ps rest else none
  | _ :: _, [] => none

/-- Try the sentiment pattern anchored at the head of the input: the quoted
key sentiment (case-insensitive), optional whitespace, colon, optional
whitespace, then a quoted word; captures the word. -/
def matchSentimentAt (cs : List Char) : Option (List Char) :=
  match stripCI ("\"sentiment\"".data) cs with
  | none => none
  | some r1 =>
    match r1.dropWhile pyIsSpace with
    | ':' :: r3 =>
      match r3.dropWhile pyIsSpace with
      | '"' :: r5 =>
        let w := r5.takeWhile isWordChar
        if w = [] then none
        else
          match r5.drop w.length with
          | '"' :: _ => some w
          | _ => none
      | _ => none
    | _ => none

/-- Try the score pattern anchored at the head of the input: the quoted key
score, optional whitespace, colon, optional whitespace, then one or more
digits or dots; captures the run. -/
def matchScoreAt (cs : List Char) : Option (List Char) :=
  match stripLit ("\"score\"".data) cs with
  | none => none
  | some r1 =>
    match r1.dropWhile pyIsSpace with
    | ':' :: r3 =>
      let r4 := r3.dropWhile pyIsSpace
      let g := r4.takeWhile isScoreChar
      if g = [] then none else some g
    | _ => none

/-- Try the summary pattern anchored at the head of the input: the quoted key
summary, optional whitespace, colon, optional whitespace, then a quoted
nonempty run of non-quote characters; captures the run. -/
def matchSummaryAt (cs : List Char) : Option (List Char) :=
  match stripLit ("\"summary\"".data) cs with
  | none => none
  | some r1 =>
    match r1.dropWhile pyIsSpace with
    | ':' :: r3 =>
      match r3.dropWhile pyIsSpace with
      | '"' :: r5 =>
        let w := r5.takeWhile (fun c => c ≠ '"')
        if w = [] then none
        else
          match r5.drop w.length with
          | '"' :: _ => some w
          | _ => none
      | _ => none
    | _ => none

/-- Leftmost search of an anchored matcher over all start positions,
modelling re.search. -/
def searchAux (f : List Char → Option (List Char)) : List Char → Option (List Char)
  | [] => f []
  | c :: rest =>
    match f (c :: rest) with
    | some g => some g
    | none => searchAux f rest

/-- Model of the sentiment-key regex search of the recovery path. -/
def searchSentiment (s : String) : Option String :=
  (searchAux matchSentimentAt s.data).map String.mk

/-- Model of the score-key regex search of the recovery path. -/
def searchScore (s : String) : Option String :=
  (searchAux matchScoreAt s.data).map String.mk

/-- Model of the summary-key regex search of the conversation recovery
path. -/
def searchSummary (s : String) : Option String :=
  (searchAux matchSummaryAt s.data).map String.mk

/-- Validated extraction record: the dict of sentiment, score and free-text
detail (keyed explanation in single-message mode and summary in conversation
mode) returned by the analyzers. -/
structure SentimentResult where
  sentiment : String
  score : ℚ
  detail : JsonValue

/-- The three valid sentiment labels. -/
def validLabels : List String :=
  ["positive", "negative", "neutral"]

/-- Coercion of an untrusted label: kept when valid, otherwise neutral. -/
def validateLabel (s : String) : String :=
  if s ∈ validLabels then s else "neutral"

/-- Step-1 body for single-message mode, on the parsed object: reads and
coerces sentiment, converts score via float() with default 0.5, defaults the
explanation to the empty string.  error models an exception escaping the
inner JSONDecodeError handler (lower() on a non-string, or float() failing). -/
def jsonPathSingle (o : List (String × JsonValue)) : Except Unit SentimentResult :=
  match pyGetD o "sentiment" (JsonValue.str "neutral") with
  | JsonValue.str s =>
    match pyFloat (pyGetD o "score" (JsonValue.num (1 / 2))) with
    | some q => Except.ok ⟨validateLabel (pyLower s), q, pyGetD o "explanation" (JsonValue.str "")⟩
    | none => Except.error ()
  | _ => Except.error ()

/-- Step-1 body for conversation mode: as the single-message one, with the
free-text field keyed summary and defaulted to the fixed overall-analysis
string. -/
def jsonPathConv (o : List (String × JsonValue)) : Except Unit SentimentResult :=
  match pyGetD o "sentiment" (JsonValue.str "neutral") with
  | JsonValue.str s =>
    match pyFloat (pyGetD o "score" (JsonValue.num (1 / 2))) with
    | some q => Except.ok ⟨validateLabel (pyLower s), q, pyGetD o "summary" (JsonValue.str "Overall conversation analysis")⟩
    | none => Except.error ()
  | _ => Except.error ()

/-- Recovery-path sentiment: the regex capture, lowercased and kept only when
valid, defaulting to neutral. -/
def recoveredLabel (t : String) : String :=
  match searchSentiment t with
  | some w => validateLabel (pyLower w)
  | none => "neutral"

/-- Recovery-path score: the regex capture through float(), clamped into
[0, 1]; 0.5 when the pattern is absent or float() raises ValueError. -/
def recoveredScore (t : String) : ℚ :=
  match searchScore t with
  | some g =>
    match pyFloatOfString g with
    | some q => max 0 (min 1 q)
    | none => 1 / 2
  | none => 1 / 2

/-- Recovery-path summary for conversation mode, with its fixed default. -/
def recoveredSummary (t : String) : String :=
  match searchSummary t with
  | some w => w
  | none => "Conversation analyzed"

/-- Score-driven inference: when the label is neutral and the score is not
0.5, a score above 0.6 forces positive and one below 0.4 forces negative. -/
def inferLabel (s : String) (q : ℚ) : String :=
  if s = "neutral" ∧ q ≠ 1 / 2 then
    if q > 3 / 5 then "positive"
    else if q < 2 / 5 then "negative"
    else s
  else s

/-- Step-2 recovery for single-message mode (regex extraction, clamping,
score-driven inference, fixed explanation). -/
def method2single (t : String) : SentimentResult :=
  ⟨inferLabel (recoveredLabel t) (recoveredScore t), recoveredScore t,
    JsonValue.str "Analyzed from response"⟩

/-- Step-2 recovery for conversation mode (additionally recovers the
summary). -/
def method2conv (t : String) : SentimentResult :=
  ⟨inferLabel (recoveredLabel t) (recoveredScore t), recoveredScore t,
    JsonValue.str (recoveredSummary t)⟩

/-- Extraction stage of analyze_sentiment as a function of the raw model
text, up to the outer exception handler: ok is a returned record, error an
exception reaching the outer handler.  A successful bracket-span parse always
yields an object because the slice starts at an opening brace; the non-object
branch is unreachable and modelled as the attribute error Python would
raise. -/
def analyzeSentimentCore (response : String) : Except Unit SentimentResult :=
  match bracketSlice response with
  | some s =>
    match jsonLoads s with
    | some (JsonValue.obj o) => jsonPathSingle o
    | some _ => Except.error ()
    | none => Except.ok (method2single response)
  | none => Except.ok (method2single response)

/-- Extraction stage of analyze_conversation_sentiment as a function of the
raw model text, up to the outer exception handler. -/
def analyzeConversationCore (response : String) : Except Unit SentimentResult :=
  match bracketSlice response with
  | some s =>
    match jsonLoads s with
    | some (JsonValue.obj o) => jsonPathConv o
    | some _ => Except.error ()
    | none => Except.ok (method2conv response)
  | none => Except.ok (method2conv response)

/-- Embedding of the extraction stage of OpenRouterClient.analyze_sentiment:
the body from the chat response onward, with the outer handler turning any
internal exception into the fixed error record. -/
def analyze_sentiment (response : String) : SentimentResult :=
  match analyzeSentimentCore response with
  | Except.ok r => r
  | Except.error _ => ⟨"neutral", 1 / 2, JsonValue.str "Error in analysis"⟩

/-- Embedding of the extraction stage of
OpenRouterClient.analyze_conversation_sentiment, with its outer handler. -/
def analyze_conversation_sentiment (response : String) : SentimentResult :=
  match analyzeConversationCore response with
  | Except.ok r => r
  | Except.error _ => ⟨"neutral", 1 / 2, JsonValue.str "Error in analysis"⟩

/-- Outcome of the HTTP round trip made by chat: either a transport-level
failure (connection error or timeout, the RequestException family raised by
requests.post itself) or a response with a status code and a body, the body
being the parsed JSON value or none when the body is not JSON. -/
inductive HttpOutcome : Type where
  | transportError : HttpOutcome
  | response : Nat → Option JsonValue → HttpOutcome

/-- The fixed degraded-service sentence returned by chat on a caught
request exception. -/
def errorSentence : String :=
  "I\x27m sorry, I encountered an error processing your request."

/-- Python subscript by string key: KeyError on a missing key, TypeError on a
non-dict, both modelled as error. -/
def pySubscriptKey (v : JsonValue) (k : String) : Except Unit JsonValue :=
  match v with
  | JsonValue.obj o =>
    match pyGet o k with
    | some x => Except.ok x
    | none => Except.error ()
  | _ => Except.error ()

/-- Python subscript [0]: the head of a list, the first character of a
string; IndexError or TypeError otherwise, modelled as error. -/
def pySubscriptZero (v : JsonValue) : Except Unit JsonValue :=
  match v with
  | JsonValue.arr (x :: _) => Except.ok x
  | JsonValue.str s =>
    match s.data with
    | c :: _ => Except.ok (JsonValue.str (String.mk [c]))
    | [] => Except.error ()
  | _ => Except.error ()

/-- Embedding of OpenRouterClient.chat as a function of the HTTP outcome:
transport errors, 4xx/5xx statuses raised by raise_for_status and non-JSON
bodies (the requests JSONDecodeError is a RequestException) are caught and
produce the fixed sentence; the subscript chain choices/0/message/content then
runs unprotected, so its failures escape to the caller (error). -/
def chat (outcome : HttpOutcome) : Except Unit JsonValue :=
  match outcome with
  | HttpOutcome.transportError => Except.ok (JsonValue.str errorSentence)
  | HttpOutcome.response status body =>
    if 400 ≤ status ∧ status < 600 then Except.ok (JsonValue.str errorSentence)
    else
      match body with
      | none => Except.ok (JsonValue.str errorSentence)
      | some data => do
        let c ← pySubscriptKey data "choices"
        let c0 ← pySubscriptZero c
        let m ← pySubscriptKey c0 "message"
        pySubscriptKey m "content"

/-- A role-tagged conversation message as consumed by
analyze_conversation_sentiment. -/
structure ChatMessage where
  role : String
  content : String

/-- The embedded block of the conversation prompt: the user-role messages,
uppercased role, colon, content, one per line, joined by newlines. -/
def conversationText (msgs : List ChatMessage) : String :=
  String.intercalate "\n"
    ((msgs.filter (fun m => m.role == "user")).map
      (fun m => pyUpper m.role ++ ": " ++ m.content))

/-- Literal text of the conversation prompt before the embedded block. -/
def promptHead : String :=
  "You are a sentiment analysis expert. Analyze the OVERALL emotional tone of this conversation based on ALL user messages.\n\nUser messages:\n"

/-- Literal text of the conversation prompt after the embedded block. -/
def promptTail : String :=
  "\n\nRespond with ONLY this JSON format, no other text:\n\x7b\"sentiment\": \"positive\", \"score\": 0.7, \"summary\": \"brief overall summary\"\x7d\n\nRules:\n- sentiment: must be exactly \"positive\", \"negative\", or \"neutral\"\n- score: 0.0 (very negative) to 1.0 (very positive), 0.5 is neutral\n- summary: one sentence describing the emotional trajectory"

/-- The conversation-mode prompt built by analyze_conversation_sentiment. -/
def buildConversationPrompt (msgs : List ChatMessage) : String :=
  promptHead ++ conversationText msgs ++ promptTail

/-- Coerced labels are always among the three valid ones. -/
theorem validateLabel_mem (s : String) : validateLabel s ∈ validLabels := by
  unfold validateLabel
  split
  · assumption
  · decide

/-- Score-driven inference keeps the label among the valid values. -/
theorem inferLabel_mem (s : String) (q : ℚ) (h : s ∈ validLabels) :
    inferLabel s q ∈ validLabels := by
  unfold inferLabel
  split_ifs <;> first | exact h | decide

/-- Recovery-path labels are always valid. -/
theorem recoveredLabel_mem (t : String) : recoveredLabel t ∈ validLabels := by
  unfold recoveredLabel
  split
  · exact validateLabel_mem _
  · decide

/-- The single-message recovery record carries a valid label. -/
theorem method2single_sentiment_mem (t : String) :
    (method2single t).sentiment ∈ validLabels :=
  inferLabel_mem _ _ (recoveredLabel_mem t)

/-- The conversation recovery record carries a valid label. -/
theorem method2conv_sentiment_mem (t : String) :
    (method2conv t).sentiment ∈ validLabels :=
  inferLabel_mem _ _ (recoveredLabel_mem t)

/-- A record produced by the single-message step-1 body carries a valid
label. -/
theorem jsonPathSingle_ok_sentiment (o : List (String × JsonValue)) (r : SentimentResult)
    (h : jsonPathSingle o = Except.ok r) : r.sentiment ∈ validLabels := by
  unfold jsonPathSingle at h
  split at h
  · split at h
    · injection h with h1
      subst h1
      exact validateLabel_mem _
    · exact (Except.noConfusion h)
  · exact (Except.noConfusion h)

/-- A record produced by the conversation step-1 body carries a valid
label. -/
theorem jsonPathConv_ok_sentiment (o : List (String × JsonValue)) (r : SentimentResult)
    (h : jsonPathConv o = Except.ok r) : r.sentiment ∈ validLabels := by
  unfold jsonPathConv at h
  split at h
  · split at h
    · injection h with h1
      subst h1
      exact validateLabel_mem _
    · exact (Except.noConfusion h)
  · exact (Except.noConfusion h)

/-- Any record the single-message extraction body returns carries a valid
label. -/
theorem analyzeSentimentCore_ok_sentiment (t : String) (r : SentimentResult)
    (h : analyzeSentimentCore t = Except.ok r) : r.sentiment ∈ validLabels := by
  unfold analyzeSentimentCore at h
  split at h
  · split at h
    · exact jsonPathSingle_ok_sentiment _ _ h
    · exact (Except.noConfusion h)
    · injection h with h1
      subst h1
      exact method2single_sentiment_mem t
  · injection h with h1
    subst h1
    exact method2single_sentiment_mem t

/-- Any record the conversation extraction body returns carries a valid
label. -/
theorem analyzeConversationCore_ok_sentiment (t : String) (r : SentimentResult)
    (h : analyzeConversationCore t = Except.ok r) : r.sentiment ∈ validLabels := by
  unfold analyzeConversationCore at h
  split at h
  · split at h
    · exact jsonPathConv_ok_sentiment _ _ h
    · exact (Except.noConfusion h)
    · injection h with h1
      subst h1
      exact method2conv_sentiment_mem t
  · injection h with h1
    subst h1
    exact method2conv_sentiment_mem t

/-- A successful leftmost search comes from the anchored matcher at some
suffix. -/
theorem searchAux_some (f : List Char → Option (List Char)) (cs w : List Char)
    (h : searchAux f cs = some w) : ∃ cs2, f cs2 = some w := by
  induction cs with
  | nil => exact ⟨[], h⟩
  | cons c rest ih =>
    unfold searchAux at h
    cases hf : f (c :: rest) with
    | some g =>
      rw [hf] at h
      exact ⟨c :: rest, hf.trans h⟩
    | none =>
      rw [hf] at h
      exact ih h

/-- The anchored score matcher only captures digits and dots. -/
theorem matchScoreAt_chars (cs w : List Char) (h : matchScoreAt cs = some w) :
    ∀ c ∈ w, isScoreChar c = true := by
  unfold matchScoreAt at h
  split at h
  · exact (Option.noConfusion h)
  · split at h
    · dsimp only at h
      split at h
      · exact (Option.noConfusion h)
      · injection h with h1
        subst h1
        intro c hc
        exact List.mem_takeWhile_imp hc
    · exact (Option.noConfusion h)

/-- The score regex search only captures digits and dots. -/
theorem searchScore_chars (t : String) (g : String) (h : searchScore t = some g) :
    ∀ c ∈ g.data, isScoreChar c = true := by
  unfold searchScore at h
  rcases Option.map_eq_some'.mp h with ⟨w, hw, hmk⟩
  rcases searchAux_some _ _ _ hw with ⟨cs2, hcs2⟩
  subst hmk
  exact matchScoreAt_chars _ _ hcs2

/-- Claim C1: the claim says every extraction path clamps the score into
[0, 1], including a successful bracket-span JSON parse.  The code disagrees:
the successful-parse path returns float(result.get(score)) unclamped, so the
raw text with score 1.7 yields the record with score 1.7, which exceeds 1.
This theorem evaluates the embedded code at that failing input. -/
theorem claim1_unclamped_score :
    analyze_sentiment "\x7b\"score\": 1.7\x7d" = ⟨"neutral", 17 / 10, JsonValue.str ""⟩ ∧
    ¬ ((17 : ℚ) / 10 ≤ 1) :=
  ⟨by with_unfolding_all rfl, by norm_num⟩

/-- Claim C2, counterexample: on the raw text with only a score of 0.9 the
claim predicts sentiment positive, but the successful bracket-span parse
returns early and the score-driven inference never runs, so the code returns
neutral. -/
theorem claim2_counterexample :
    (analyze_sentiment "\x7b\"score\": 0.9\x7d").sentiment ≠ "positive" := by
  with_unfolding_all decide

/-- Claim C2, amended: for the raw text with only a score of 0.9 the
successful bracket-span JSON parse returns sentiment neutral with score 0.9
immediately; the score-driven inference applies only on the pattern-recovery
path, where the same fields without braces do produce positive. -/
theorem claim2_amended_eval :
    analyze_sentiment "\x7b\"score\": 0.9\x7d" = ⟨"neutral", 9 / 10, JsonValue.str ""⟩ ∧
    analyze_sentiment "\"score\": 0.9" =
      ⟨"positive", 9 / 10, JsonValue.str "Analyzed from response"⟩ :=
  ⟨by with_unfolding_all rfl, by with_unfolding_all rfl⟩

/-- Claim C3: extraction is total.  For every raw text, each analyzer either
returns the record its body produced, or the body hit an internal error and
the analyzer returns the fixed record of neutral, 0.5 and the error detail;
no error value or exception ever reaches the caller. -/
theorem claim3_extraction_total : ∀ t : String,
    ((∃ r, analyzeSentimentCore t = Except.ok r ∧ analyze_sentiment t = r) ∨
      (analyzeSentimentCore t = Except.error () ∧
        analyze_sentiment t = ⟨"neutral", 1 / 2, JsonValue.str "Error in analysis"⟩)) ∧
    ((∃ r, analyzeConversationCore t = Except.ok r ∧ analyze_conversation_sentiment t = r) ∨
      (analyzeConversationCore t = Except.error () ∧
        analyze_conversation_sentiment t = ⟨"neutral", 1 / 2, JsonValue.str "Error in analysis"⟩)) := by
  intro t
  constructor
  · cases h : analyzeSentimentCore t with
    | ok r =>
      refine Or.inl ⟨r, rfl, ?_⟩
      unfold analyze_sentiment
      rw [h]
    | error e =>
      cases e
      refine Or.inr ⟨rfl, ?_⟩
      unfold analyze_sentiment
      rw [h]
  · cases h : analyzeConversationCore t with
    | ok r =>
      refine Or.inl ⟨r, rfl, ?_⟩
      unfold analyze_conversation_sentiment
      rw [h]
    | error e =>
      cases e
      refine Or.inr ⟨rfl, ?_⟩
      unfold analyze_conversation_sentiment
      rw [h]

/-- Claim C4, counterexample: the claim says chat never raises and returns
the fixed degraded-service sentence on any protocol failure including a
malformed envelope; but on a 200 response whose JSON body is the empty object
the subscript chain raises a KeyError that escapes to the caller. -/
theorem claim4_counterexample :
    chat (HttpOutcome.response 200 (some (JsonValue.obj []))) = Except.error () := rfl

/-- Claim C4, amended: chat returns the fixed degraded-service sentence on
every transport failure, on every 4xx or 5xx status and on a non-JSON body;
only a well-formed JSON body lacking the choices/message/content structure
makes it raise. -/
theorem claim4_amended :
    chat HttpOutcome.transportError = Except.ok (JsonValue.str errorSentence) ∧
    ∀ st body, ((400 ≤ st ∧ st < 600) ∨ body = none) →
      chat (HttpOutcome.response st body) = Except.ok (JsonValue.str errorSentence) := by
  refine ⟨rfl, ?_⟩
  intro st body h
  rcases h with h | h
  · simp only [chat]
    rw [if_pos h]
  · subst h
    simp only [chat]
    split_ifs <;> rfl

/-- Witness for the amended C4 at a concrete degraded outcome. -/
theorem claim4_witness :
    chat (HttpOutcome.response 503 none) = Except.ok (JsonValue.str errorSentence) :=
  claim4_amended.2 503 none (Or.inr rfl)

/-- Claim C5: every record either analyzer returns carries a sentiment equal
to one of the three enumerated labels, on every path. -/
theorem claim5_label_invariant : ∀ t : String,
    (analyze_sentiment t).sentiment ∈ validLabels ∧
    (analyze_conversation_sentiment t).sentiment ∈ validLabels := by
  intro t
  constructor
  · unfold analyze_sentiment
    cases h : analyzeSentimentCore t with
    | ok r => exact analyzeSentimentCore_ok_sentiment t r h
    | error e =>
      cases e
      show "neutral" ∈ validLabels
      decide
  · unfold analyze_conversation_sentiment
    cases h : analyzeConversationCore t with
    | ok r => exact analyzeConversationCore_ok_sentiment t r h
    | error e =>
      cases e
      show "neutral" ∈ validLabels
      decide

/-- Claim C6, counterexample: the claim says a non-numeric score inside a
successfully parsed bracket span keeps the parsed record with score 0.5; but
float() on the string bad raises, the exception escapes the JSONDecodeError
handler, and the total-failure fallback discards the parsed sentiment and
explanation. -/
theorem claim6_counterexample :
    analyze_sentiment "\x7b\"sentiment\": \"positive\", \"score\": \"bad\", \"explanation\": \"hi\"\x7d" =
      ⟨"neutral", 1 / 2, JsonValue.str "Error in analysis"⟩ := rfl

/-- Claim C6, amended: when the bracket-span JSON parse succeeds and the
score field is absent, the score defaults to 0.5 and the sentiment and
free-text fields read from that JSON are kept; a score field that float()
cannot convert instead raises internally and diverts to the total-failure
fallback. -/
theorem claim6_amended (t u : String) (o : List (String × JsonValue)) (s : String)
    (h1 : bracketSlice t = some u) (h2 : jsonLoads u = some (JsonValue.obj o))
    (h3 : pyGet o "score" = none) (h4 : pyGet o "sentiment" = some (JsonValue.str s)) :
    analyze_sentiment t =
      ⟨validateLabel (pyLower s), 1 / 2, pyGetD o "explanation" (JsonValue.str "")⟩ := by
  have hs : pyGetD o "sentiment" (JsonValue.str "neutral") = JsonValue.str s := by
    unfold pyGetD
    rw [h4]
    rfl
  have hq : pyGetD o "score" (JsonValue.num (1 / 2)) = JsonValue.num (1 / 2) := by
    unfold pyGetD
    rw [h3]
    rfl
  simp only [analyze_sentiment, analyzeSentimentCore, h1, h2, jsonPathSingle, hs, hq, pyFloat]

/-- Witness for the amended C6: an absent score defaults to 0.5 while the
parsed sentiment and explanation survive. -/
theorem claim6_witness :
    analyze_sentiment "\x7b\"sentiment\": \"positive\", \"explanation\": \"hi\"\x7d" =
      ⟨"positive", 1 / 2, JsonValue.str "hi"⟩ :=
  claim6_amended "\x7b\"sentiment\": \"positive\", \"explanation\": \"hi\"\x7d"
    "\x7b\"sentiment\": \"positive\", \"explanation\": \"hi\"\x7d"
    [("sentiment", JsonValue.str "positive"), ("explanation", JsonValue.str "hi")]
    "positive" rfl rfl rfl rfl

/-- Claim C7: when the bracket-span JSON parse succeeds and the free-text
field is absent, the detail defaults to the mode-specific fallback: the empty
string in single-message mode and the fixed overall-analysis sentence in
conversation mode. -/
theorem claim7_detail_defaults :
    (∀ t u o s q, bracketSlice t = some u → jsonLoads u = some (JsonValue.obj o) →
      pyGet o "sentiment" = some (JsonValue.str s) →
      pyFloat (pyGetD o "score" (JsonValue.num (1 / 2))) = some q →
      pyGet o "explanation" = none →
      analyze_sentiment t = ⟨validateLabel (pyLower s), q, JsonValue.str ""⟩) ∧
    (∀ t u o s q, bracketSlice t = some u → jsonLoads u = some (JsonValue.obj o) →
      pyGet o "sentiment" = some (JsonValue.str s) →
      pyFloat (pyGetD o "score" (JsonValue.num (1 / 2))) = some q →
      pyGet o "summary" = none →
      analyze_conversation_sentiment t =
        ⟨validateLabel (pyLower s), q, JsonValue.str "Overall conversation analysis"⟩) := by
  constructor
  · intro t u o s q h1 h2 h3 h4 h5
    have hs : pyGetD o "sentiment" (JsonValue.str "neutral") = JsonValue.str s := by
      unfold pyGetD
      rw [h3]
      rfl
    have he : pyGetD o "explanation" (JsonValue.str "") = JsonValue.str "" := by
      unfold pyGetD
      rw [h5]
      rfl
    simp only [analyze_sentiment, analyzeSentimentCore, h1, h2, jsonPathSingle, hs, h4, he]
  · intro t u o s q h1 h2 h3 h4 h5
    have hs : pyGetD o "sentiment" (JsonValue.str "neutral") = JsonValue.str s := by
      unfold pyGetD
      rw [h3]
      rfl
    have he : pyGetD o "summary" (JsonValue.str "Overall conversation analysis") =
        JsonValue.str "Overall conversation analysis" := by
      unfold pyGetD
      rw [h5]
      rfl
    simp only [analyze_conversation_sentiment, analyzeConversationCore, h1, h2, jsonPathConv, hs,
      h4, he]

/-- Witness for C7 in both modes at concrete raw texts lacking the free-text
field. -/
theorem claim7_witness :
    analyze_sentiment "\x7b\"sentiment\": \"good\", \"score\": 0.8\x7d" =
      ⟨"neutral", 4 / 5, JsonValue.str ""⟩ ∧
    analyze_conversation_sentiment "\x7b\"sentiment\": \"negative\", \"score\": 0.2\x7d" =
      ⟨"negative", 1 / 5, JsonValue.str "Overall conversation analysis"⟩ :=
  ⟨claim7_detail_defaults.1 "\x7b\"sentiment\": \"good\", \"score\": 0.8\x7d"
      "\x7b\"sentiment\": \"good\", \"score\": 0.8\x7d"
      [("sentiment", JsonValue.str "good"), ("score", JsonValue.num (4 / 5))]
      "good" (4 / 5) rfl (by with_unfolding_all rfl) rfl (by with_unfolding_all rfl) rfl,
    claim7_detail_defaults.2 "\x7b\"sentiment\": \"negative\", \"score\": 0.2\x7d"
      "\x7b\"sentiment\": \"negative\", \"score\": 0.2\x7d"
      [("sentiment", JsonValue.str "negative"), ("score", JsonValue.num (1 / 5))]
      "negative" (1 / 5) rfl (by with_unfolding_all rfl) rfl (by with_unfolding_all rfl) rfl⟩

/-- Claim C8: a raw text that is exactly a valid JSON object with a valid
lowercase sentiment S, a numeric score N in [0, 1] and a string explanation E
extracts to exactly the record of S, N and E. -/
theorem claim8_exact_json (t S : String) (N : ℚ) (E : String)
    (h1 : bracketSlice t = some t)
    (h2 : jsonLoads t = some (JsonValue.obj
      [("sentiment", JsonValue.str S), ("score", JsonValue.num N),
        ("explanation", JsonValue.str E)]))
    (hS : S ∈ validLabels) (hN0 : 0 ≤ N) (hN1 : N ≤ 1) :
    analyze_sentiment t = ⟨S, N, JsonValue.str E⟩ := by
  have hlow : pyLower S = S := by
    simp only [validLabels, List.mem_cons, List.not_mem_nil, or_false] at hS
    rcases hS with rfl | rfl | rfl <;> rfl
  have hv : validateLabel (pyLower S) = S := by
    rw [hlow]
    unfold validateLabel
    rw [if_pos hS]
  have e1 : pyGetD [("sentiment", JsonValue.str S), ("score", JsonValue.num N),
      ("explanation", JsonValue.str E)] "sentiment" (JsonValue.str "neutral") =
      JsonValue.str S := rfl
  have e2 : pyGetD [("sentiment", JsonValue.str S), ("score", JsonValue.num N),
      ("explanation", JsonValue.str E)] "score" (JsonValue.num (1 / 2)) =
      JsonValue.num N := rfl
  have e3 : pyGetD [("sentiment", JsonValue.str S), ("score", JsonValue.num N),
      ("explanation", JsonValue.str E)] "explanation" (JsonValue.str "") =
      JsonValue.str E := rfl
  simp only [analyze_sentiment, analyzeSentimentCore, h1, h2, jsonPathSingle, e1, e2, e3,
    pyFloat, hv]

/-- Witness for C8 at a concrete exact-JSON raw text. -/
theorem claim8_witness :
    analyze_sentiment "\x7b\"sentiment\": \"positive\", \"score\": 0.8, \"explanation\": \"Good\"\x7d" =
      ⟨"positive", 4 / 5, JsonValue.str "Good"⟩ :=
  claim8_exact_json "\x7b\"sentiment\": \"positive\", \"score\": 0.8, \"explanation\": \"Good\"\x7d"
    "positive" (4 / 5) "Good" rfl (by with_unfolding_all rfl) (by decide) (by norm_num)
    (by norm_num)

/-- Claim C9: the conversation prompt embeds only the user-role messages, one
line per message built from its role and content in conversation order;
inserting a non-user message anywhere leaves the prompt unchanged. -/
theorem claim9_user_only :
    (∀ pre post m, m.role ≠ "user" →
      buildConversationPrompt (pre ++ m :: post) = buildConversationPrompt (pre ++ post)) ∧
    (∀ msgs : List ChatMessage, (∀ m ∈ msgs, m.role = "user") →
      buildConversationPrompt msgs =
        promptHead ++
          String.intercalate "\n" (msgs.map (fun m => pyUpper m.role ++ ": " ++ m.content)) ++
          promptTail) := by
  constructor
  · intro pre post m hm
    have hb : (m.role == "user") = false := by
      rw [beq_eq_false_iff_ne]
      exact hm
    have hfull : (pre ++ m :: post).filter (fun x => x.role == "user") =
        (pre ++ post).filter (fun x => x.role == "user") := by
      simp [List.filter_append, List.filter_cons, hb]
    unfold buildConversationPrompt conversationText
    rw [hfull]
  · intro msgs h
    have hfil : msgs.filter (fun x => x.role == "user") = msgs :=
      List.filter_eq_self.mpr (fun a ha => by simpa using h a ha)
    unfold buildConversationPrompt conversationText
    rw [hfil]

/-- Witness for C9: an assistant message contributes nothing to the prompt. -/
theorem claim9_witness :
    buildConversationPrompt [⟨"assistant", "hi"⟩] = buildConversationPrompt [] :=
  claim9_user_only.1 [] [] ⟨"assistant", "hi"⟩ (by decide)

/-- Claim C10: the score pattern captures only digits and dots, so a
brace-free raw text whose score literal is negative recovers no score and the
analyzers return the default 0.5; at the concrete negative-literal text both
the bracket span and the score search come up empty. -/
theorem claim10_negative_literal :
    (∀ t g, searchScore t = some g → ∀ c ∈ g.data, c.isDigit = true ∨ c = '.') ∧
    (∀ t, bracketSlice t = none → searchScore t = none →
      (analyze_sentiment t).score = 1 / 2 ∧ (analyze_conversation_sentiment t).score = 1 / 2) ∧
    (bracketSlice "The \"score\": -0.3 overall" = none ∧
      searchScore "The \"score\": -0.3 overall" = none) := by
  refine ⟨?_, ?_, rfl, rfl⟩
  · intro t g h c hc
    have hsc := searchScore_chars t g h c hc
    simpa [isScoreChar] using hsc
  · intro t h1 h2
    constructor
    · simp only [analyze_sentiment, analyzeSentimentCore, h1, method2single, recoveredScore, h2]
    · simp only [analyze_conversation_sentiment, analyzeConversationCore, h1, method2conv,
        recoveredScore, h2]

/-- Witness for C10 at the concrete negative-literal raw text. -/
theorem claim10_witness :
    (analyze_sentiment "The \"score\": -0.3 overall").score = 1 / 2 :=
  (claim10_negative_literal.2.1 "The \"score\": -0.3 overall" rfl rfl).1

end SentimentChatbot
